import Mathlib

/-!
Shallow embedding of the news-backend service (src/index.js): article store
with dedup-on-title ingestion, category routes, search filter builder,
like/unlike mutation, and the identity-provider webhook handler.

The MongoDB collection is modelled as a `List` of documents in insertion
order; `Article.findOne`/`find`/`findById` become `List.find?`/`List.filter`
over that list, and `save` of an existing document replaces the document with
the matching `_id`.  Timestamps (`Date`) are epoch milliseconds (`Int`).
-/

/-- The `source` sub-record of an article: `{id, name, country}`, all optional. -/
structure Source where
  id : Option String
  name : Option String
  country : Option String
deriving Repr, DecidableEq

/-- Article document (articleSchema, src/index.js lines 31-44).
`likes` is an array of user ids; the schema defaults it to the empty array. -/
structure Article where
  oid : Nat                      -- MongoDB `_id`
  title : String
  description : Option String
  url : Option String
  publishedAt : Option Int       -- epoch milliseconds
  source : Source
  category : String
  urlToImage : Option String
  likes : List String
deriving Repr, DecidableEq

/-- One item of the external feed's `articles` array (no category, no likes). -/
structure FeedArticle where
  title : String
  description : Option String
  url : Option String
  publishedAt : Option Int
  source : Source
  urlToImage : Option String
deriving Repr, DecidableEq

/-- Loop body of `fetchAndSaveArticles` (lines 61-82): look the title up with
`Article.findOne {title}`; if absent, save a new document whose `category` is
the requested category and whose `likes` is the schema default `[]`. -/
def insertIfAbsent (oid : Nat) (category : String) (fa : FeedArticle)
    (store : List Article) : List Article :=
  if store.any (fun a => a.title == fa.title) then
    store
  else
    store ++ [{ oid := oid
                title := fa.title
                description := fa.description
                url := fa.url
                publishedAt := fa.publishedAt
                source := fa.source
                category := category
                urlToImage := fa.urlToImage
                likes := [] }]

/-- Number of stored records carrying a given title. -/
def countTitle (store : List Article) (t : String) : Nat :=
  store.countP (fun a => a.title == t)

theorem insertIfAbsent_existing (oid : Nat) (category : String)
    (fa : FeedArticle) (store : List Article)
    (h : store.any (fun a => a.title == fa.title) = true) :
    insertIfAbsent oid category fa store = store := by
  simp [insertIfAbsent, h]

theorem countTitle_insertIfAbsent (oid : Nat) (category : String)
    (fa : FeedArticle) (store : List Article) :
    countTitle (insertIfAbsent oid category fa store) fa.title =
      max (countTitle store fa.title) 1 := by
  by_cases h : store.any (fun a => a.title == fa.title) = true
  · rw [insertIfAbsent_existing _ _ _ _ h]
    have : 0 < countTitle store fa.title := by
      rcases List.any_eq_true.mp h with ⟨a, ha, hta⟩
      exact List.countP_pos_iff.mpr ⟨a, ha, hta⟩
    omega
  · have hz : countTitle store fa.title = 0 := by
      rw [countTitle, List.countP_eq_zero]
      intro a ha
      exact fun hta => h (List.any_eq_true.mpr ⟨a, ha, hta⟩)
    simp only [insertIfAbsent, h, if_false, countTitle, List.countP_append]
    rw [countTitle] at hz
    simp [hz, List.countP_cons]

/-- C1: `insertIfAbsent` is dedup-on-title: an attempt for an existing title
leaves the store (hence the existing record) untouched, and two consecutive
attempts with the same title leave exactly one record with that title
(assuming the store respects the title-uniqueness invariant). -/
theorem insertIfAbsent_dedup_on_title :
    (∀ (oid : Nat) (category : String) (fa : FeedArticle) (store : List Article),
      store.any (fun a => a.title == fa.title) = true →
      insertIfAbsent oid category fa store = store) ∧
    (∀ (oid oid2 : Nat) (category category2 : String) (fa : FeedArticle)
        (store : List Article),
      countTitle store fa.title ≤ 1 →
      countTitle
        (insertIfAbsent oid2 category2 fa (insertIfAbsent oid category fa store))
        fa.title = 1) := by
  refine ⟨insertIfAbsent_existing, ?_⟩
  intro oid oid2 category category2 fa store h
  rw [countTitle_insertIfAbsent, countTitle_insertIfAbsent]
  omega

/-- Witness for C1 at a concrete article and empty store. -/
theorem insertIfAbsent_dedup_on_title_witness :
    countTitle
      (insertIfAbsent 1 "general"
        ⟨"t", none, none, none, ⟨none, none, none⟩, none⟩
        (insertIfAbsent 0 "general"
          ⟨"t", none, none, none, ⟨none, none, none⟩, none⟩ [])) "t" = 1 :=
  insertIfAbsent_dedup_on_title.2 0 1 "general" "general"
    ⟨"t", none, none, none, ⟨none, none, none⟩, none⟩ [] (by decide)

/-- Response of the like/unlike endpoints: 404 Article not found, or 200
with the resulting `likesCount`. -/
inductive LikeResp where
  | notFound
  | ok (likesCount : Nat)
deriving Repr, DecidableEq

/-- Lookup `Article.findById(articleId)`. -/
def findById (store : List Article) (i : Nat) : Option Article :=
  store.find? (fun a => a.oid == i)

/-- Saving (`article.save()`) a loaded document: replace the document with this
`_id` by the mutated one. -/
def saveById (store : List Article) (a2 : Article) : List Article :=
  store.map (fun b => if b.oid == a2.oid then a2 else b)

/-- POST /articles/:id/like (lines 166-184): 404 if the id does not resolve;
push `userId` unless already in `likes`; respond with the like count. -/
def likeArticle (store : List Article) (articleId : Nat) (userId : String) :
    List Article × LikeResp :=
  match findById store articleId with
  | none => (store, .notFound)
  | some article =>
      if article.likes.contains userId then
        (store, .ok article.likes.length)
      else
        let article2 := { article with likes := article.likes ++ [userId] }
        (saveById store article2, .ok article2.likes.length)

/-- POST /articles/:id/unlike (lines 187-203): 404 if the id does not
resolve; keep only like entries different from `userId`; respond with the
like count. -/
def unlikeArticle (store : List Article) (articleId : Nat) (userId : String) :
    List Article × LikeResp :=
  match findById store articleId with
  | none => (store, .notFound)
  | some article =>
      let article2 :=
        { article with likes := article.likes.filter (fun v => v != userId) }
      (saveById store article2, .ok article2.likes.length)

/-- Concrete article builder used in witnesses. -/
def mkArticle (oid : Nat) (title category : String) (likes : List String) :
    Article :=
  { oid := oid, title := title, description := none, url := none,
    publishedAt := none, source := ⟨none, none, none⟩, category := category,
    urlToImage := none, likes := likes }

theorem findById_saveById (i : Nat) (a2 : Article) (h2 : a2.oid = i) :
    ∀ store : List Article, (findById store i).isSome →
      findById (saveById store a2) i = some a2 := by
  intro store
  induction store with
  | nil => intro h; simp [findById] at h
  | cons b t ih =>
    intro h
    by_cases hb : b.oid = i
    · simp [findById, saveById, List.find?, hb, h2]
    · have hbne : (b.oid == i) = false := by simp [hb]
      have hbne2 : (b.oid == a2.oid) = false := by rw [h2]; exact hbne
      simp only [findById, List.find?, hbne, cond_false] at h
      have step : saveById (b :: t) a2 = b :: saveById t a2 := by
        simp only [saveById, List.map_cons, hbne2, Bool.false_eq_true,
          if_false]
      rw [step]
      have hskip : findById (b :: saveById t a2) i =
          findById (saveById t a2) i := by
        simp only [findById, List.find?, hbne, cond_false]
      rw [hskip]
      exact ih h

theorem findById_oid {store : List Article} {i : Nat} {a : Article}
    (h : findById store i = some a) : a.oid = i := by
  have := List.find?_some h
  simpa using this

theorem likeArticle_mem (store : List Article) (i : Nat) (u : String)
    (a : Article) (ha : findById store i = some a)
    (hu : a.likes.contains u = true) :
    likeArticle store i u = (store, LikeResp.ok a.likes.length) := by
  have hu' : u ∈ a.likes := by simpa using hu
  simp [likeArticle, ha, hu']

theorem likeArticle_not_mem (store : List Article) (i : Nat) (u : String)
    (a : Article) (ha : findById store i = some a)
    (hu : a.likes.contains u = false) :
    likeArticle store i u =
      (saveById store { a with likes := a.likes ++ [u] },
        LikeResp.ok (a.likes.length + 1)) := by
  have hu' : u ∉ a.likes := by simpa using hu
  simp [likeArticle, ha, hu']

theorem unlikeArticle_eq (store : List Article) (i : Nat) (u : String)
    (a : Article) (ha : findById store i = some a) :
    unlikeArticle store i u =
      (saveById store { a with likes := a.likes.filter (fun v => v != u) },
        LikeResp.ok (a.likes.filter (fun v => v != u)).length) := by
  simp [unlikeArticle, ha]

/-- C4: liking is idempotent: if the user id is already in the likes set the
call changes nothing and returns the current count, and a second identical
call after any like returns exactly the first call's store and count. -/
theorem like_idempotent :
    (∀ (store : List Article) (i : Nat) (u : String) (a : Article),
      findById store i = some a → a.likes.contains u = true →
      likeArticle store i u = (store, LikeResp.ok a.likes.length)) ∧
    (∀ (store : List Article) (i : Nat) (u : String),
      (findById store i).isSome = true →
      likeArticle (likeArticle store i u).1 i u = likeArticle store i u) := by
  refine ⟨likeArticle_mem, ?_⟩
  intro store i u h
  rcases ho : findById store i with _ | a
  · rw [ho] at h; simp at h
  · by_cases hu : a.likes.contains u = true
    · rw [likeArticle_mem store i u a ho hu]
      show likeArticle store i u = _
      exact likeArticle_mem store i u a ho hu
    · have hu' : a.likes.contains u = false := by simpa using hu
      have haoid : a.oid = i := findById_oid ho
      rw [likeArticle_not_mem store i u a ho hu']
      have hfind2 : findById
          (saveById store { a with likes := a.likes ++ [u] }) i =
          some { a with likes := a.likes ++ [u] } :=
        findById_saveById i { a with likes := a.likes ++ [u] } haoid store
          (by rw [ho]; rfl)
      have hu2 : ({ a with likes := a.likes ++ [u] } :
          Article).likes.contains u = true := by simp
      show likeArticle (saveById store { a with likes := a.likes ++ [u] })
          i u = _
      rw [likeArticle_mem _ i u _ hfind2 hu2]
      simp

/-- Witness for C4 at a concrete store: article 0 with likes `["u1"]`. -/
theorem like_idempotent_witness :
    likeArticle (likeArticle [mkArticle 0 "t" "general" ["u1"]] 0 "u2").1
        0 "u2" =
      likeArticle [mkArticle 0 "t" "general" ["u1"]] 0 "u2" :=
  like_idempotent.2 [mkArticle 0 "t" "general" ["u1"]] 0 "u2" (by decide)

/-- C5 counterexample: for an article whose likes set already contains the
user id, `like` then `unlike` with that id does NOT return to the pre-like
count: the pre-like count is 1 but the count after like-then-unlike is 0. -/
theorem like_unlike_counterexample :
    (mkArticle 0 "t" "general" ["u1"]).likes.length = 1 ∧
    findById [mkArticle 0 "t" "general" ["u1"]] 0 =
      some (mkArticle 0 "t" "general" ["u1"]) ∧
    (unlikeArticle
        (likeArticle [mkArticle 0 "t" "general" ["u1"]] 0 "u1").1
        0 "u1").2 = LikeResp.ok 0 := by
  decide

/-- C5 amended: for every existing article and every user id NOT already in
its likes set, `like` followed by `unlike` with that user id returns the
article to its pre-like like count. -/
theorem like_unlike_restores_count (store : List Article) (i : Nat)
    (u : String) (a : Article) (ha : findById store i = some a)
    (hu : a.likes.contains u = false) :
    (unlikeArticle (likeArticle store i u).1 i u).2 =
      LikeResp.ok a.likes.length := by
  have hmem : u ∉ a.likes := by simpa using hu
  have haoid : a.oid = i := findById_oid ha
  rw [likeArticle_not_mem store i u a ha hu]
  have hfind2 : findById
      (saveById store { a with likes := a.likes ++ [u] }) i =
      some { a with likes := a.likes ++ [u] } :=
    findById_saveById i { a with likes := a.likes ++ [u] } haoid store
      (by rw [ha]; rfl)
  show (unlikeArticle (saveById store { a with likes := a.likes ++ [u] })
      i u).2 = _
  rw [unlikeArticle_eq _ i u _ hfind2]
  have h1 : a.likes.filter (fun v => v != u) = a.likes := by
    apply List.filter_eq_self.mpr
    intro v hv
    have : v ≠ u := fun he => hmem (he ▸ hv)
    simp [this]
  have hfilter : (a.likes ++ [u]).filter (fun v => v != u) = a.likes := by
    rw [List.filter_append, h1]
    simp
  simp [hfilter]

/-- Witness for the amended C5 at a concrete store. -/
theorem like_unlike_restores_count_witness :
    (unlikeArticle
        (likeArticle [mkArticle 0 "t" "general" ["u1"]] 0 "u2").1
        0 "u2").2 = LikeResp.ok 1 :=
  like_unlike_restores_count [mkArticle 0 "t" "general" ["u1"]] 0 "u2"
    (mkArticle 0 "t" "general" ["u1"]) (by decide) (by decide)

/-- Milliseconds past local midnight denoted by wall-clock `h:m:s.ms`
(the arithmetic behind `Date.setHours(h, m, s, ms)` within one day). -/
def hmsMillis (h m s ms : Int) : Int :=
  h * 3600000 + m * 60000 + s * 1000 + ms

/-- Query string of GET /search: the four optional parameters. `date` is
represented after parsing, as the epoch-millisecond value of the local
midnight of the requested day (`new Date(date).setHours(0,0,0,0)`). -/
structure SearchQuery where
  title : Option String
  country : Option String
  category : Option String
  date : Option Int
deriving Repr, DecidableEq

/-- The `searchCriteria` document built by GET /search (lines 208-226):
optional regex criteria on `title`, `source.country`, `category`, and an
optional `($gte, $lt)` bound pair on `publishedAt`. -/
structure SearchCriteria where
  title : Option String
  country : Option String
  category : Option String
  publishedAt : Option (Int × Int)
deriving Repr, DecidableEq

/-- JS truthiness guard `if (title) { ... }`: a missing or empty-string
query parameter contributes no criterion. -/
def truthyOpt : Option String → Option String
  | none => none
  | some s => if s = "" then none else some s

/-- Lines 210-226: build the criteria document from the query string. -/
def buildCriteria (q : SearchQuery) : SearchCriteria :=
  { title := truthyOpt q.title
    country := truthyOpt q.country
    category := truthyOpt q.category
    publishedAt := q.date.map (fun d =>
      (d + hmsMillis 0 0 0 0, d + hmsMillis 23 59 59 999)) }

/-- Substring test on character lists. -/
def containsSub (pat : List Char) : List Char → Bool
  | [] => pat.isEmpty
  | c :: t => pat.isPrefixOf (c :: t) || containsSub pat t

/-- Case-insensitive substring match: `{$regex: pat, $options: 'i'}`
applied to a literal pattern. -/
def ciContains (s pat : String) : Bool :=
  containsSub pat.toLower.toList s.toLower.toList

/-- One regex criterion against a required string field. -/
def evalStrCrit (c : Option String) (v : String) : Bool :=
  match c with
  | none => true
  | some pat => ciContains v pat

/-- One regex criterion against an optional field (`source.country`):
a document missing the field matches no regex criterion. -/
def evalOptStrCrit (c : Option String) (v : Option String) : Bool :=
  match c with
  | none => true
  | some pat =>
      match v with
      | none => false
      | some s => ciContains s pat

/-- The `publishedAt: {$gte, $lt}` criterion: a document without
`publishedAt` matches no range criterion. -/
def evalDateCrit (c : Option (Int × Int)) (p : Option Int) : Bool :=
  match c with
  | none => true
  | some (lo, hi) =>
      match p with
      | none => false
      | some t => decide (lo ≤ t) && decide (t < hi)

/-- MongoDB conjunction semantics of the criteria document: every field
present in `searchCriteria` must match. -/
def matchesCriteria (c : SearchCriteria) (a : Article) : Bool :=
  evalStrCrit c.title a.title &&
  evalOptStrCrit c.country a.source.country &&
  evalStrCrit c.category a.category &&
  evalDateCrit c.publishedAt a.publishedAt

/-- GET /search (lines 206-240): `Article.find(searchCriteria)`; respond 404
when the result list is empty, else 200 with the results. -/
def searchArticles (q : SearchQuery) (store : List Article) :
    Nat × List Article :=
  let searchResults := store.filter (matchesCriteria (buildCriteria q))
  if searchResults.isEmpty then (404, []) else (200, searchResults)

theorem evalStrCrit_iff (c : Option String) (v : String) :
    evalStrCrit c v = true ↔
      ∀ pat, c = some pat → ciContains v pat = true := by
  cases c <;> simp [evalStrCrit]

theorem evalOptStrCrit_iff (c : Option String) (v : Option String) :
    evalOptStrCrit c v = true ↔
      ∀ pat, c = some pat →
        ∃ s, v = some s ∧ ciContains s pat = true := by
  cases c <;> cases v <;> simp [evalOptStrCrit]

theorem evalDateCrit_iff (c : Option (Int × Int)) (p : Option Int) :
    evalDateCrit c p = true ↔
      ∀ lo hi, c = some (lo, hi) →
        ∃ t, p = some t ∧ lo ≤ t ∧ t < hi := by
  rcases c with _ | ⟨lo, hi⟩ <;> rcases p with _ | t <;>
    simp [evalDateCrit]

theorem searchArticles_mem (q : SearchQuery) (store : List Article)
    (a : Article) :
    a ∈ (searchArticles q store).2 ↔
      a ∈ store ∧ matchesCriteria (buildCriteria q) a = true := by
  simp only [searchArticles]
  by_cases he : (store.filter (matchesCriteria (buildCriteria q))).isEmpty
  · have hnil : store.filter (matchesCriteria (buildCriteria q)) = [] :=
      List.isEmpty_iff.mp he
    rw [if_pos he]
    constructor
    · intro h; cases h
    · rintro ⟨ha, hm⟩
      have : a ∈ store.filter (matchesCriteria (buildCriteria q)) :=
        List.mem_filter.mpr ⟨ha, hm⟩
      rw [hnil] at this
      cases this
  · rw [if_neg he]
    exact List.mem_filter

theorem matchesCriteria_iff (c : SearchCriteria) (a : Article) :
    matchesCriteria c a = true ↔
      ((∀ pat, c.title = some pat → ciContains a.title pat = true) ∧
       (∀ pat, c.country = some pat →
          ∃ s, a.source.country = some s ∧ ciContains s pat = true) ∧
       (∀ pat, c.category = some pat → ciContains a.category pat = true) ∧
       (∀ lo hi, c.publishedAt = some (lo, hi) →
          ∃ t, a.publishedAt = some t ∧ lo ≤ t ∧ t < hi)) := by
  simp only [matchesCriteria, Bool.and_eq_true]
  rw [evalStrCrit_iff, evalOptStrCrit_iff, evalStrCrit_iff, evalDateCrit_iff]
  tauto

/-- C2: GET /search returns exactly the stored articles satisfying the
conjunction (logical AND) of the provided criteria; absent criteria impose
no constraint (no criteria at all returns every stored article), and the
response is the 404 not-found signal iff the matching set is empty. -/
theorem search_conjunction_spec (q : SearchQuery) (store : List Article) :
    ((searchArticles q store).1 = 200 ∨ (searchArticles q store).1 = 404) ∧
    ((searchArticles q store).1 = 404 ↔
      ∀ a ∈ store, matchesCriteria (buildCriteria q) a = false) ∧
    (∀ a, a ∈ (searchArticles q store).2 ↔
      a ∈ store ∧
      (∀ pat, (buildCriteria q).title = some pat →
        ciContains a.title pat = true) ∧
      (∀ pat, (buildCriteria q).country = some pat →
        ∃ s, a.source.country = some s ∧ ciContains s pat = true) ∧
      (∀ pat, (buildCriteria q).category = some pat →
        ciContains a.category pat = true) ∧
      (∀ lo hi, (buildCriteria q).publishedAt = some (lo, hi) →
        ∃ t, a.publishedAt = some t ∧ lo ≤ t ∧ t < hi)) ∧
    (q.title = none → q.country = none → q.category = none →
      q.date = none → (searchArticles q store).2 = store) := by
  refine ⟨?_, ?_, ?_, ?_⟩
  · simp only [searchArticles]
    split <;> simp
  · simp only [searchArticles]
    by_cases he : (store.filter (matchesCriteria (buildCriteria q))).isEmpty
    · rw [if_pos he]
      have hnil : store.filter (matchesCriteria (buildCriteria q)) = [] :=
        List.isEmpty_iff.mp he
      constructor
      · intro _ a ha
        cases hmc : matchesCriteria (buildCriteria q) a
        · rfl
        · exfalso
          have : a ∈ store.filter (matchesCriteria (buildCriteria q)) :=
            List.mem_filter.mpr ⟨ha, hmc⟩
          rw [hnil] at this
          cases this
      · intro _; rfl
    · rw [if_neg he]
      constructor
      · intro h; simp at h
      · intro hall
        exfalso
        apply he
        apply List.isEmpty_iff.mpr
        apply List.filter_eq_nil_iff.mpr
        intro a ha
        rw [hall a ha]
        simp
  · intro a
    rw [searchArticles_mem, matchesCriteria_iff]
  · intro h1 h2 h3 h4
    have hall : store.filter (matchesCriteria (buildCriteria q)) = store := by
      apply List.filter_eq_self.mpr
      intro a _
      simp [matchesCriteria, buildCriteria, h1, h2, h3, h4, truthyOpt,
        evalStrCrit, evalOptStrCrit, evalDateCrit]
    simp only [searchArticles, hall]
    by_cases hs : store.isEmpty
    · rw [if_pos hs]
      exact (List.isEmpty_iff.mp hs).symm
    · rw [if_neg hs]

/-- Witness for C2: a no-criteria search over a one-article store returns
that article. -/
theorem search_conjunction_spec_witness :
    (searchArticles ⟨none, none, none, none⟩
        [mkArticle 0 "t" "general" []]).2 =
      [mkArticle 0 "t" "general" []] :=
  (search_conjunction_spec ⟨none, none, none, none⟩
      [mkArticle 0 "t" "general" []]).2.2.2 rfl rfl rfl rfl

/-- Article published exactly at the last millisecond (23:59:59.999) of the
day whose local midnight is epoch-millisecond 0. -/
def lastMsArticle : Article :=
  { mkArticle 0 "t" "general" [] with publishedAt := some 86399999 }

/-- C3 counterexample: the date filter is NOT the closed range ending at
23:59:59.999: an article published exactly at 23:59:59.999 of the requested
day lies inside the claimed closed range, yet GET /search with that date
criterion returns the 404 not-found result (`$lt`, so the bound instant is
excluded). -/
theorem search_date_closed_range_counterexample :
    (0 : Int) + hmsMillis 0 0 0 0 ≤ 86399999 ∧
    (86399999 : Int) ≤ 0 + hmsMillis 23 59 59 999 ∧
    searchArticles ⟨none, none, none, some 0⟩ [lastMsArticle] =
      (404, []) := by
  decide

/-- Article published at 2024-01-15T10:00:00Z (epoch ms). -/
def article0115 : Article :=
  { mkArticle 1 "a" "general" [] with publishedAt := some 1705312800000 }

/-- Article published at 2024-01-16T00:00:01Z (epoch ms). -/
def article0116 : Article :=
  { mkArticle 2 "b" "general" [] with publishedAt := some 1705363201000 }

/-- C3 amended: for every date criterion (given as the local midnight `d` of
the requested day), the date filter selects exactly the articles whose
`publishedAt` lies in the HALF-OPEN range `[d 00:00:00.000, d 23:59:59.999)`
in local server time — the instant 23:59:59.999 itself is excluded. The
claim's two cited examples hold (server clock at UTC): date=2024-01-15
matches publishedAt = 2024-01-15T10:00:00Z and excludes
2024-01-16T00:00:01Z. -/
theorem search_date_half_open :
    (∀ (d p : Int) (q : SearchQuery), q.date = some d →
      (evalDateCrit (buildCriteria q).publishedAt (some p) = true ↔
        d ≤ p ∧ p < d + 86399999)) ∧
    searchArticles ⟨none, none, none, some 1705276800000⟩
      [article0115, article0116] = (200, [article0115]) := by
  constructor
  · intro d p q hq
    simp [buildCriteria, hq, evalDateCrit, hmsMillis]
  · decide

/-- Witness for the amended C3 at a concrete query and timestamp. -/
theorem search_date_half_open_witness :
    evalDateCrit (buildCriteria ⟨none, none, none, some 0⟩).publishedAt
        (some 5) = true ↔ (0 : Int) ≤ 5 ∧ (5 : Int) < 0 + 86399999 :=
  search_date_half_open.1 0 5 ⟨none, none, none, some 0⟩ rfl

/-- Per-article loop of `fetchAndSaveArticles` over the feed response, in
the order returned (fresh `_id`s supplied by position). -/
def ingestArticles (category : String) (arts : List FeedArticle)
    (store : List Article) : List Article :=
  arts.foldl (fun s fa => insertIfAbsent s.length category fa s) store

/-- Function `fetchAndSaveArticles(category)` (lines 50-89): fetch the category's
headlines from the feed; on success insert each item in order
(dedup-on-title) and return a message; a fetch failure is rethrown as a
wrapped error naming the category. The feed is a function from category to
either the response's `articles` array or a fetch error. -/
def fetchAndSaveArticles (feed : String → Except String (List FeedArticle))
    (category : String) (store : List Article) :
    Except String (List Article × String) :=
  match feed category with
  | .ok articles =>
      .ok (ingestArticles category articles store,
        "Headlines for category " ++ category ++
          " fetched and saved to the database (if new).")
  | .error _ =>
      .error ("An error occurred while fetching " ++ category ++
        " headlines.")

/-- The fixed category list (line 92). -/
def categories : List String :=
  ["general", "sports", "technology", "health", "business"]

/-- Per-category loop of `fetchAllCategories` (lines 95-104), over an
arbitrary category list: each per-category error is caught (logged) and the
loop continues with the store unchanged. -/
def fetchCategoriesList
    (feed : String → Except String (List FeedArticle)) :
    List String → List Article → List Article
  | [], store => store
  | c :: rest, store =>
      match fetchAndSaveArticles feed c store with
      | .ok (s2, _) => fetchCategoriesList feed rest s2
      | .error _ => fetchCategoriesList feed rest store

/-- Function `fetchAllCategories()`: the startup ingestion over the fixed list. -/
def fetchAllCategories (feed : String → Except String (List FeedArticle))
    (store : List Article) : List Article :=
  fetchCategoriesList feed categories store

/-- C7: partial-failure isolation at category granularity: if the feed
fails for category c, `fetchAndSaveArticles` raises the wrapped error
naming c, and the per-category loop catches it and merely skips that
category: the run over `pre ++ [c] ++ post` equals the run over
`pre ++ post`, so ingestion still runs for every remaining category in the
fixed order and the startup sequence (a total function) never aborts. -/
theorem ingestion_category_failure_isolation
    (feed : String → Except String (List FeedArticle)) (c : String)
    (e : String) (hfail : feed c = .error e) :
    (∀ store : List Article, fetchAndSaveArticles feed c store =
      .error ("An error occurred while fetching " ++ c ++ " headlines.")) ∧
    (∀ (pre post : List String) (store : List Article),
      fetchCategoriesList feed (pre ++ c :: post) store =
        fetchCategoriesList feed (pre ++ post) store) := by
  have hstep : ∀ store : List Article, fetchAndSaveArticles feed c store =
      .error ("An error occurred while fetching " ++ c ++ " headlines.") := by
    intro store
    simp [fetchAndSaveArticles, hfail]
  refine ⟨hstep, ?_⟩
  intro pre
  induction pre with
  | nil =>
    intro post store
    show fetchCategoriesList feed (c :: post) store =
      fetchCategoriesList feed post store
    simp [fetchCategoriesList, hstep store]
  | cons b t ih =>
    intro post store
    simp only [List.cons_append, fetchCategoriesList]
    cases hb : fetchAndSaveArticles feed b store with
    | ok p =>
      obtain ⟨s2, msg⟩ := p
      exact ih post s2
    | error e2 =>
      exact ih post store

/-- Feed that fails exactly on the sports category. -/
def oneFailFeed : String → Except String (List FeedArticle) :=
  fun c =>
    if c = "sports" then .error "boom"
    else .ok [⟨c ++ " story", none, none, none, ⟨none, none, none⟩, none⟩]

/-- Witness for C7: with a feed failing on sports, the loop over
[general, sports, technology] equals the loop over [general, technology]. -/
theorem ingestion_category_failure_isolation_witness :
    fetchCategoriesList oneFailFeed ["general", "sports", "technology"] [] =
      fetchCategoriesList oneFailFeed ["general", "technology"] [] :=
  (ingestion_category_failure_isolation oneFailFeed "sports" "boom"
      rfl).2 ["general"] ["technology"] []

/-- User document (UserSchema, lines 22-28): `clerkUserId` is required and
carries a unique index. -/
structure User where
  clerkUserId : String
  firstName : Option String
  lastName : Option String
  email : Option String
deriving Repr, DecidableEq

/-- The `data` object of an inbound identity-provider webhook payload. -/
structure WebhookData where
  id : Option String
  first_name : Option String
  last_name : Option String
  email_addresses : List String
deriving Repr, DecidableEq

/-- Inbound webhook payload `{type, data}`. -/
structure WebhookPayload where
  type : String
  data : WebhookData
deriving Repr, DecidableEq

/-- Saving (`user.save()`) under the unique index on `clerkUserId`: inserting a
document whose external id is already present raises the store's
duplicate-key (Conflict) error; otherwise the document is appended. -/
def saveUser (users : List User) (u : User) :
    Except String (List User) :=
  if users.any (fun v => v.clerkUserId == u.clerkUserId) then
    .error "E11000 duplicate key error"
  else
    .ok (users ++ [u])

/-- POST /api/webhooks (lines 112-163): dispatch on the event type; for
user.created take the first email (or none), 400 on a missing/empty
external id, save the user, and catch any store error as a 500 with
`success:false`; for user.deleted remove the first matching user; any
other type is a 400. Result: (user store, HTTP status, success flag). -/
def handleWebhook (users : List User) (p : WebhookPayload) :
    List User × Nat × Bool :=
  if p.type == "user.created" then
    let primaryEmail := p.data.email_addresses.head?
    match p.data.id with
    | none => (users, 400, false)
    | some clerkUserId =>
        if clerkUserId = "" then (users, 400, false)
        else
          match saveUser users
              { clerkUserId := clerkUserId
                firstName := p.data.first_name
                lastName := p.data.last_name
                email := primaryEmail } with
          | .ok users2 => (users2, 200, true)
          | .error _ => (users, 500, false)
  else if p.type == "user.deleted" then
    match p.data.id with
    | some did => (users.eraseP (fun v => v.clerkUserId == did), 200, true)
    | none => (users, 200, true)
  else
    (users, 400, false)

/-- Number of stored users carrying a given external id. -/
def countClerkId (users : List User) (cid : String) : Nat :=
  users.countP (fun v => v.clerkUserId == cid)

theorem handleWebhook_created_fresh (users : List User)
    (p : WebhookPayload) (cid : String) (htype : p.type = "user.created")
    (hid : p.data.id = some cid) (hne : cid ≠ "")
    (habs : users.any (fun v => v.clerkUserId == cid) = false) :
    handleWebhook users p =
      (users ++ [⟨cid, p.data.first_name, p.data.last_name,
        p.data.email_addresses.head?⟩], 200, true) := by
  simp [handleWebhook, htype, hid, hne, saveUser, habs]

theorem handleWebhook_created_dup (users : List User)
    (p : WebhookPayload) (cid : String) (htype : p.type = "user.created")
    (hid : p.data.id = some cid) (hne : cid ≠ "")
    (hany : users.any (fun v => v.clerkUserId == cid) = true) :
    handleWebhook users p = (users, 500, false) := by
  simp [handleWebhook, htype, hid, hne, saveUser, hany]

theorem countClerkId_any (users : List User) (cid : String) :
    (users.any (fun v => v.clerkUserId == cid) = true) ↔
      0 < countClerkId users cid := by
  constructor
  · intro h
    rcases List.any_eq_true.mp h with ⟨v, hv, hp⟩
    exact List.countP_pos_iff.mpr ⟨v, hv, hp⟩
  · intro h
    rcases List.countP_pos_iff.mp h with ⟨v, hv, hp⟩
    exact List.any_eq_true.mpr ⟨v, hv, hp⟩

/-- C6: duplicate user creation is rejected: starting from a store without
the external id, the first user.created event succeeds (200) and a second
identical event is rejected — the unique index raises the duplicate-key
Conflict, surfaced as a 500 with `success:false` — leaving the store
unchanged, with exactly one user carrying that external id. -/
theorem duplicate_user_created_rejected (users : List User)
    (p : WebhookPayload) (cid : String) (htype : p.type = "user.created")
    (hid : p.data.id = some cid) (hne : cid ≠ "")
    (habs : countClerkId users cid = 0) :
    (handleWebhook users p).2 = (200, true) ∧
    (handleWebhook (handleWebhook users p).1 p).2 = (500, false) ∧
    (handleWebhook (handleWebhook users p).1 p).1 =
      (handleWebhook users p).1 ∧
    countClerkId (handleWebhook (handleWebhook users p).1 p).1 cid = 1 := by
  have habs' : users.any (fun v => v.clerkUserId == cid) = false := by
    cases ha : users.any (fun v => v.clerkUserId == cid)
    · rfl
    · exfalso
      have := (countClerkId_any users cid).mp ha
      omega
  have h1 := handleWebhook_created_fresh users p cid htype hid hne habs'
  have hcount1 : countClerkId (handleWebhook users p).1 cid = 1 := by
    rw [h1]
    show countClerkId (users ++ [_]) cid = 1
    rw [countClerkId, List.countP_append]
    rw [countClerkId] at habs
    simp [habs, List.countP_cons]
  have hany1 : (handleWebhook users p).1.any
      (fun v => v.clerkUserId == cid) = true := by
    apply (countClerkId_any _ cid).mpr
    omega
  have h2 := handleWebhook_created_dup (handleWebhook users p).1 p cid
    htype hid hne hany1
  refine ⟨by rw [h1], by rw [h2], by rw [h2], ?_⟩
  rw [h2]
  exact hcount1

/-- Witness for C6 at a concrete payload and empty user store. -/
theorem duplicate_user_created_rejected_witness :
    (handleWebhook
        (handleWebhook []
          ⟨"user.created", ⟨some "u1", some "A", some "B", ["a@b.com"]⟩⟩).1
        ⟨"user.created", ⟨some "u1", some "A", some "B", ["a@b.com"]⟩⟩).2 =
      (500, false) :=
  (duplicate_user_created_rejected []
      ⟨"user.created", ⟨some "u1", some "A", some "B", ["a@b.com"]⟩⟩
      "u1" rfl rfl (by decide) rfl).2.1

/-- C8: for a user.created event (present non-empty external id, no
conflicting stored user) the created user's email is the FIRST address of
the payload's email_addresses list, and when the list is empty the email is
`none` (null) while the user is still created (200, success). -/
theorem user_created_first_email (users : List User) (p : WebhookPayload)
    (cid : String) (htype : p.type = "user.created")
    (hid : p.data.id = some cid) (hne : cid ≠ "")
    (habs : users.any (fun v => v.clerkUserId == cid) = false) :
    handleWebhook users p =
      (users ++ [⟨cid, p.data.first_name, p.data.last_name,
        p.data.email_addresses.head?⟩], 200, true) ∧
    (p.data.email_addresses = [] →
      handleWebhook users p =
        (users ++ [⟨cid, p.data.first_name, p.data.last_name, none⟩],
          200, true)) := by
  have h1 := handleWebhook_created_fresh users p cid htype hid hne habs
  refine ⟨h1, fun hemp => ?_⟩
  rw [h1, hemp]
  rfl

/-- Witness for C8: a payload with an empty address list still creates the
user, with a `none` email. -/
theorem user_created_first_email_witness :
    handleWebhook []
        ⟨"user.created", ⟨some "u2", some "A", some "B", []⟩⟩ =
      ([⟨"u2", some "A", some "B", none⟩], 200, true) :=
  (user_created_first_email []
      ⟨"user.created", ⟨some "u2", some "A", some "B", []⟩⟩
      "u2" rfl rfl (by decide) rfl).2 rfl

/-- Item of the GET /headlines response: the article document spread plus
the injected `likeCount`. -/
structure HeadlineItem where
  article : Article
  likeCount : Nat
deriving Repr, DecidableEq

/-- GET /headlines (lines 243-258): `Article.find({category:'general'})`,
mapping each document to itself plus `likeCount` = number of entries in its
`likes` array (the schema defaults an absent `likes` to `[]`, counted 0).
No write is performed: the store is returned unchanged. -/
def getHeadlines (store : List Article) :
    List Article × Nat × List HeadlineItem :=
  (store, 200,
    (store.filter (fun a => a.category == "general")).map
      (fun a => { article := a, likeCount := a.likes.length }))

/-- GET /categories/:category (lines 312-321) and the fixed-category routes:
`Article.find({category})`, always a 200 with the (possibly empty) list. -/
def getByCategory (store : List Article) (category : String) :
    Nat × List Article :=
  (200, store.filter (fun a => a.category == category))

/-- GET /sports (lines 262-271). -/
def getSports (store : List Article) : Nat × List Article :=
  getByCategory store "sports"

/-- GET /health (lines 275-284). -/
def getHealth (store : List Article) : Nat × List Article :=
  getByCategory store "health"

/-- GET /business (lines 287-296). -/
def getBusiness (store : List Article) : Nat × List Article :=
  getByCategory store "business"

/-- GET /technology (lines 300-309). -/
def getTechnology (store : List Article) : Nat × List Article :=
  getByCategory store "technology"

theorem getByCategory_empty (store : List Article) (category : String)
    (hnone : ∀ a ∈ store, a.category ≠ category) :
    getByCategory store category = (200, []) := by
  unfold getByCategory
  rw [List.filter_eq_nil_iff.mpr]
  intro a ha
  simp [hnone a ha]

/-- C9: every category-fetch route (the five fixed routes — /headlines
fetches category 'general' — and the generic /categories/:category) always
responds 200, and when no stored article carries the requested category the
body is the empty list; /search, by contrast, signals 404 whenever its
result set is empty (here: any search over an empty store). -/
theorem category_routes_empty_ok :
    (∀ (store : List Article) (category : String),
      (getByCategory store category).1 = 200) ∧
    (∀ store : List Article, (getHeadlines store).2.1 = 200) ∧
    (∀ (store : List Article) (category : String),
      (∀ a ∈ store, a.category ≠ category) →
      getByCategory store category = (200, [])) ∧
    (∀ store : List Article, (∀ a ∈ store, a.category ≠ "general") →
      getHeadlines store = (store, 200, [])) ∧
    (∀ store : List Article, (∀ a ∈ store, a.category ≠ "sports") →
      getSports store = (200, [])) ∧
    (∀ store : List Article, (∀ a ∈ store, a.category ≠ "health") →
      getHealth store = (200, [])) ∧
    (∀ store : List Article, (∀ a ∈ store, a.category ≠ "business") →
      getBusiness store = (200, [])) ∧
    (∀ store : List Article, (∀ a ∈ store, a.category ≠ "technology") →
      getTechnology store = (200, [])) ∧
    (∀ q : SearchQuery, (searchArticles q ([] : List Article)).1 = 404) := by
  refine ⟨fun _ _ => rfl, fun _ => rfl, getByCategory_empty, ?_, ?_, ?_, ?_,
    ?_, fun _ => rfl⟩
  · intro store hnone
    have hfil : store.filter (fun a => a.category == "general") = [] := by
      apply List.filter_eq_nil_iff.mpr
      intro a ha
      simp [hnone a ha]
    simp [getHeadlines, hfil]
  · intro store hnone
    exact getByCategory_empty store "sports" hnone
  · intro store hnone
    exact getByCategory_empty store "health" hnone
  · intro store hnone
    exact getByCategory_empty store "business" hnone
  · intro store hnone
    exact getByCategory_empty store "technology" hnone

/-- Witness for C9: a store holding only a general article yields the empty
list on the sports route. -/
theorem category_routes_empty_ok_witness :
    getSports [mkArticle 0 "t" "general" []] = (200, []) :=
  category_routes_empty_ok.2.2.2.2.1 [mkArticle 0 "t" "general" []]
    (by decide)

/-- C10: GET /headlines is read-only — the store comes back unchanged — and
every returned item's likeCount equals the number of entries in its
article's likes list. -/
theorem headlines_likeCount (store : List Article) :
    (getHeadlines store).1 = store ∧
    ∀ it ∈ (getHeadlines store).2.2,
      it.likeCount = it.article.likes.length := by
  refine ⟨rfl, ?_⟩
  intro it hit
  simp only [getHeadlines, List.mem_map] at hit
  obtain ⟨a, _, rfl⟩ := hit
  rfl

/-- Witness for C10 at a one-article store with one like. -/
theorem headlines_likeCount_witness :
    (⟨mkArticle 0 "t" "general" ["u1"], 1⟩ : HeadlineItem).likeCount =
      (mkArticle 0 "t" "general" ["u1"]).likes.length :=
  (headlines_likeCount [mkArticle 0 "t" "general" ["u1"]]).2
    ⟨mkArticle 0 "t" "general" ["u1"], 1⟩ (by decide)
